import Mathlib

/-!
Verification of the Pair-Setup and Pair-Verify handshake handlers of hap-rs
(`src/transport/http/handler/pair_setup.rs` and `pair_verify.rs`).

The handlers are embedded shallowly: bytes are `List Nat`, the mutable
handler structs become explicit state passing, randomness becomes explicit
arguments, and the external cryptographic crates (sha2, srp, ring's HKDF,
chacha20_poly1305_aead, crypto's ed25519/curve25519), the TLV codec and the
UUID parser are abstracted as an oracle structure `Oracles` that the handler
functions are parameterized over.  Rust panics (slice-index out of bounds,
integer underflow) are modelled by `Option`: a handler returns `none`
exactly where the Rust code panics.  The `u8` retry counter is modelled as
`Nat` with an explicit `% 256` on increment, matching release-mode wrap
semantics.
-/

/-- Byte strings are lists of naturals (each entry one byte). -/
abbrev Bytes : Type := List Nat

/-- ASCII bytes of a string literal; used for the fixed protocol labels
(`b"Pair-Setup"`, `b"PS-Msg05"`, ...). -/
def ascii (s : String) : Bytes := s.data.map Char.toNat

/-- Big-endian base-256 digits, fuel-driven so the kernel can evaluate it;
`n` itself always suffices as fuel. -/
def natBytesBEAux : Nat → Nat → Bytes
  | 0, _ => []
  | _, 0 => []
  | fuel + 1, n => natBytesBEAux fuel (n / 256) ++ [n % 256]

/-- Big-endian base-256 digits of a natural number with no leading zeros;
`natBytesBE 0 = []`. -/
def natBytesBE (n : Nat) : Bytes := natBytesBEAux n n

/-- Mirrors `num::BigUint::to_bytes_be`: minimal big-endian bytes, with
`[0]` for zero. -/
def bigUintToBytesBE (n : Nat) : Bytes :=
  if n = 0 then [0] else natBytesBE n

/-- Mirrors `num::BigUint::from_bytes_be`. -/
def fromBytesBE (l : Bytes) : Nat := l.foldl (fun a b => a * 256 + b) 0

/-- Error kinds of the TLV layer (`tlv::Error`).  The variants `unknown`,
`authentication`, `maxPeers` and `maxTries` appear literally in the handler
sources.  Modelled from the spec: `tlv.rs` with its `From` conversions is
not included under `src/`, so the error kinds those conversions produce are
taken from spec section 7 — `decryption` for an AEAD tag failure,
`uuidParse` for a malformed identifier (UTF-8 or UUID parse failure),
`storeNotFound` for a missing Pairing record bubbled up from the store, and
`srpFailure` for an SRP server construction error. -/
inductive TlvErr
  | unknown
  | authentication
  | maxPeers
  | maxTries
  | decryption
  | uuidParse
  | storeNotFound
  | srpFailure
deriving DecidableEq

/-- Mirrors `tlv::ErrorContainer::new(state, error)`. -/
structure ErrorContainer where
  state : Nat
  error : TlvErr
deriving DecidableEq

/-- The typed TLV values the handlers emit (`tlv::Value` constructors that
appear in the two source files). -/
inductive Value
  | state (code : Nat)
  | publicKey (b : Bytes)
  | salt (b : Bytes)
  | proof (b : Bytes)
  | encryptedData (b : Bytes)
  | identifier (b : Bytes)
  | signature (b : Bytes)
deriving DecidableEq

/-- A successful handler reply (`tlv::Container`, a `Vec<Value>`). -/
abbrev Container := List Value

/-- A decoded TLV mapping (`HashMap<u8, Vec<u8>>` produced by the external
`tlv::decode`), as a lookup function from type code to value bytes. -/
abbrev TlvMap := Nat → Option Bytes

/-- Modelled from the spec: the numeric TLV type codes (`tlv::Type`) of the
accessory protocol; `tlv.rs` is not under `src/`.  Only their distinctness
matters for the handlers. -/
def tIdentifier : Nat := 1

/-- Modelled from the spec: TLV type code of the salt field. -/
def tSalt : Nat := 2

/-- Modelled from the spec: TLV type code of the public-key field. -/
def tPublicKey : Nat := 3

/-- Modelled from the spec: TLV type code of the proof field. -/
def tProof : Nat := 4

/-- Modelled from the spec: TLV type code of the encrypted-data field. -/
def tEncryptedData : Nat := 5

/-- Modelled from the spec: TLV type code of the state field. -/
def tState : Nat := 6

/-- Modelled from the spec: TLV type code of the signature field. -/
def tSignature : Nat := 10

/-- Pairing permission levels (`protocol::Permissions`). -/
inductive Permissions
  | admin
  | user
deriving DecidableEq

/-- Controller identifiers; the concrete UUID representation is irrelevant
to the handlers, which only parse, compare and store them. -/
abbrev Uuid := Nat

/-- The accessory identity loaded from the store
(`Device { id, pin, public_key, private_key }`). -/
structure Device where
  id : Bytes
  pin : Bytes
  publicKey : Bytes
  privateKey : Bytes
deriving DecidableEq

/-- A persisted controller-trust record
(`Pairing { id, permissions, public_key }`). -/
structure Pairing where
  id : Uuid
  permissions : Permissions
  publicKey : Bytes
deriving DecidableEq

/-- The store interface the handlers consume: the accessory identity and
the list of persisted pairings (`count_pairings` is its length,
`save_to` appends, `Pairing::load_from` looks up by id). -/
structure Db where
  device : Device
  pairings : List Pairing
deriving DecidableEq

/-- Configuration: the optional maximum-peer count (`config.max_peers`). -/
structure Config where
  maxPeers : Option Nat
deriving DecidableEq

/-- Events emitted by the handlers (`Event::DevicePaired`). -/
inductive Event
  | devicePaired
deriving DecidableEq

/-- The transport-session hand-off object (`tcp::Session`) sent through the
one-shot channel by a successful Pair-Verify Finish. -/
structure TcpSession where
  controllerId : Uuid
  sharedSecret : Bytes
deriving DecidableEq

/-- An SRP server instance as the handlers use it: its public value
(`get_b_pub`) and the agreed key (`get_key`). -/
structure SrpInst where
  bPub : Bytes
  key : Bytes
deriving DecidableEq

/-- The external primitives the handlers call, abstracted as oracles:
`sha` is the 512-bit digest (a full run of incremental `input` calls is the
digest of the concatenation), `srpPrivateKey`/`srpVerifier`/`srpNew` wrap
the srp crate (`srpNew` takes username, salt, verifier, client public and
server private exponent and can fail like `SrpServer::new`), `groupN` and
`groupG` are the 3072-bit group constants, `hkdf saltLabel ikm infoLabel
len` is ring's extract-then-expand, `aeadEncrypt`/`aeadDecrypt` wrap
chacha20_poly1305_aead (key, nonce, aad, then plaintext or
ciphertext+tag), `edSign`/`edVerify` wrap crypto::ed25519 (message, key,
then signature for verify), `curveBase`/`curveMul` wrap curve25519,
`tlvDecode`/`tlvEncode` the external TLV codec, and `parseUuid` the
`str::from_utf8` + `Uuid::parse_str` pipeline. -/
structure Oracles where
  sha : Bytes → Bytes
  srpPrivateKey : Bytes → Bytes → Bytes → Bytes
  srpVerifier : Bytes → Bytes
  srpNew : Bytes → Bytes → Bytes → Bytes → Bytes → Except Unit SrpInst
  groupN : Nat
  groupG : Nat
  hkdf : Bytes → Bytes → Bytes → Nat → Bytes
  aeadEncrypt : Bytes → Bytes → Bytes → Bytes → Bytes × Bytes
  aeadDecrypt : Bytes → Bytes → Bytes → Bytes → Bytes → Except Unit Bytes
  edSign : Bytes → Bytes → Bytes
  edVerify : Bytes → Bytes → Bytes → Bool
  curveBase : Bytes → Bytes
  curveMul : Bytes → Bytes → Bytes
  tlvDecode : Bytes → TlvMap
  tlvEncode : List (Nat × Bytes) → Bytes
  parseUuid : Bytes → Option Uuid

/-- Pair-Setup per-handshake session state (`Session` in pair_setup.rs). -/
structure PSSession where
  salt : Bytes
  verifier : Bytes
  b : Bytes
  bPub : Bytes
  sharedSecret : Option Bytes
deriving DecidableEq

/-- The Pair-Setup handler state (`PairSetup { session, unsuccessful_tries }`);
the `u8` counter is a `Nat` kept below 256 by the explicit `% 256` on
increment. -/
structure PairSetup where
  session : Option PSSession
  unsuccessfulTries : Nat
deriving DecidableEq

/-- A parsed Pair-Setup request (`Step` in pair_setup.rs). -/
inductive PSStep
  | start
  | verify (aPub : Bytes) (aProof : Bytes)
  | exchange (data : Bytes)
deriving DecidableEq

/-- The Pair-Setup step parser (`PairSetup::parse`), taken after the
external `tlv::decode` has produced the type-code mapping.  `none` models
the `method[0]` panic on an empty state value. -/
def psParse (body : TlvMap) : Option (Except ErrorContainer PSStep) :=
  match body tState with
  | none => some (Except.error ⟨0, TlvErr.unknown⟩)
  | some method =>
    match method.head? with
    | none => none
    | some m =>
      if m = 1 then some (Except.ok PSStep.start)
      else if m = 3 then
        match body tPublicKey with
        | none => some (Except.error ⟨4, TlvErr.unknown⟩)
        | some aPub =>
          match body tProof with
          | none => some (Except.error ⟨4, TlvErr.unknown⟩)
          | some aProof => some (Except.ok (PSStep.verify aPub aProof))
      else if m = 5 then
        match body tEncryptedData with
        | none => some (Except.error ⟨6, TlvErr.unknown⟩)
        | some data => some (Except.ok (PSStep.exchange data))
      else some (Except.error ⟨0, TlvErr.unknown⟩)

/-- The SRP client-proof check (`verify_client_proof` in pair_setup.rs),
parameterized over the digest `H` (instantiated with SHA-512 at the call
site) and the group constants.  The hash results are routed through
`BigUint` exactly as in the source: digests are read as big-endian
integers, XOR-ed, and re-serialized minimally. -/
def verifyClientProof (H : Bytes → Bytes) (n g : Nat)
    (bPub aPub aProof salt key : Bytes) : Except TlvErr Bytes :=
  let hn := fromBytesBE (H (bigUintToBytesBE n))
  let hg := fromBytesBE (H (bigUintToBytesBE g))
  let hng := hn ^^^ hg
  let hi := H (ascii "Pair-Setup")
  let m := H (bigUintToBytesBE hng ++ hi ++ salt ++ aPub ++ bPub ++ key)
  if aProof = m then Except.ok (H (aPub ++ aProof ++ key))
  else Except.error TlvErr.authentication

/-- The Pair-Setup Start step (`handle_start`): refuse when the retry
counter exceeds 99, otherwise build the SRP server from fresh randomness
(`rs` is the sampled 16-byte salt, `rb` the 64-byte private exponent) and
store the new session. -/
def psHandleStart (e : Oracles) (h : PairSetup) (db : Db) (rs rb : Bytes) :
    PairSetup × Except TlvErr Container :=
  if 99 < h.unsuccessfulTries then (h, Except.error TlvErr.maxTries)
  else
    let accessory := db.device
    let salt := rs
    let b := rb
    let privateKey := e.srpPrivateKey (ascii "Pair-Setup") accessory.pin salt
    let verifier := e.srpVerifier privateKey
    match e.srpNew (ascii "Pair-Setup") salt verifier (ascii "foo") b with
    | Except.error _ => (h, Except.error TlvErr.srpFailure)
    | Except.ok inst =>
      ({ h with session := some ⟨salt, verifier, b, inst.bPub, none⟩ },
        Except.ok [Value.state 2, Value.publicKey inst.bPub, Value.salt salt])

/-- The Pair-Setup Verify step (`handle_verify`): rebuild the SRP server
from the stored session and the client public value, store the shared
secret in the session, then check the client proof.  Note the secret is
stored before `verifyClientProof` runs, exactly as in the source. -/
def psHandleVerify (e : Oracles) (h : PairSetup) (aPub aProof : Bytes) :
    PairSetup × Except TlvErr Container :=
  match h.session with
  | none => (h, Except.error TlvErr.unknown)
  | some s =>
    match e.srpNew (ascii "Pair-Setup") s.salt s.verifier aPub s.b with
    | Except.error _ => (h, Except.error TlvErr.srpFailure)
    | Except.ok inst =>
      let sharedSecret := inst.key
      let s' := { s with sharedSecret := some sharedSecret }
      let h' := { h with session := some s' }
      match verifyClientProof e.sha e.groupN e.groupG s.bPub aPub aProof
          s.salt sharedSecret with
      | Except.error err => (h', Except.error err)
      | Except.ok bProof =>
        (h', Except.ok [Value.state 4, Value.proof bProof])

/-- The Pair-Setup Exchange step (`handle_exchange`).  The source never
writes to the handler in this step (it only reads the session), so the
result is the possibly-updated store, the emitted events and the reply.
`none` models the two Rust panics: the tag split `data[..data.len() - 16]`
on payloads shorter than 16 bytes, and `device_ltpk[..32]` on a controller
key shorter than 32 bytes. -/
def psHandleExchange (e : Oracles) (cfg : Config) (h : PairSetup) (db : Db)
    (data : Bytes) :
    Option (Db × List Event × Except TlvErr Container) :=
  match h.session with
  | none => some (db, [], Except.error TlvErr.unknown)
  | some s =>
    match s.sharedSecret with
    | none => some (db, [], Except.error TlvErr.unknown)
    | some sharedSecret =>
      if data.length < 16 then none
      else
        let encryptedData := data.take (data.length - 16)
        let authTag := data.drop (data.length - 16)
        let encryptionKey := e.hkdf (ascii "Pair-Setup-Encrypt-Salt")
          sharedSecret (ascii "Pair-Setup-Encrypt-Info") 32
        let nonce05 := List.replicate 4 0 ++ ascii "PS-Msg05"
        match e.aeadDecrypt encryptionKey nonce05 [] encryptedData authTag with
        | Except.error _ => some (db, [], Except.error TlvErr.decryption)
        | Except.ok decryptedData =>
          let subTlv := e.tlvDecode decryptedData
          match subTlv tIdentifier with
          | none => some (db, [], Except.error TlvErr.unknown)
          | some devicePairingId =>
            match subTlv tPublicKey with
            | none => some (db, [], Except.error TlvErr.unknown)
            | some deviceLtpk =>
              match subTlv tSignature with
              | none => some (db, [], Except.error TlvErr.unknown)
              | some deviceSignature =>
                let deviceX := e.hkdf (ascii "Pair-Setup-Controller-Sign-Salt")
                  sharedSecret (ascii "Pair-Setup-Controller-Sign-Info") 32
                let deviceInfo := deviceX ++ devicePairingId ++ deviceLtpk
                if ! e.edVerify deviceInfo deviceLtpk deviceSignature then
                  some (db, [], Except.error TlvErr.authentication)
                else
                  match e.parseUuid devicePairingId with
                  | none => some (db, [], Except.error TlvErr.uuidParse)
                  | some pairingUuid =>
                    if deviceLtpk.length < 32 then none
                    else
                      let pairingLtpk := deviceLtpk.take 32
                      let capacityExceeded :=
                        match cfg.maxPeers with
                        | some maxPeers => decide (maxPeers < db.pairings.length + 1)
                        | none => false
                      if capacityExceeded then
                        some (db, [], Except.error TlvErr.maxPeers)
                      else
                        let pairing : Pairing :=
                          ⟨pairingUuid, Permissions.admin, pairingLtpk⟩
                        let db' := { db with pairings := db.pairings ++ [pairing] }
                        let accessoryX :=
                          e.hkdf (ascii "Pair-Setup-Accessory-Sign-Salt")
                            sharedSecret (ascii "Pair-Setup-Accessory-Sign-Info") 32
                        let accessory := db.device
                        let accessoryInfo :=
                          accessoryX ++ accessory.id ++ accessory.publicKey
                        let accessorySignature :=
                          e.edSign accessoryInfo accessory.privateKey
                        let encodedSubTlv := e.tlvEncode
                          [(tIdentifier, accessory.id),
                           (tPublicKey, accessory.publicKey),
                           (tSignature, accessorySignature)]
                        let nonce06 := List.replicate 4 0 ++ ascii "PS-Msg06"
                        let ct := e.aeadEncrypt encryptionKey nonce06 [] encodedSubTlv
                        some (db', [Event.devicePaired],
                          Except.ok [Value.state 6,
                            Value.encryptedData (ct.1 ++ ct.2)])

/-- The per-arm wrapping done by `PairSetup::handle`: a success resets the
retry counter, a failure increments it (with the `u8` wrap made explicit)
and tags the error with the arm's response state code. -/
def psWrap (code : Nat) :
    PairSetup × Db × List Event × Except TlvErr Container →
    PairSetup × Db × List Event × Except ErrorContainer Container
  | (h, db, evs, Except.ok c) =>
    ({ h with unsuccessfulTries := 0 }, db, evs, Except.ok c)
  | (h, db, evs, Except.error err) =>
    ({ h with unsuccessfulTries := (h.unsuccessfulTries + 1) % 256 }, db, evs,
      Except.error ⟨code, err⟩)

/-- The Pair-Setup dispatcher (`PairSetup::handle`): runs the step function
for the parsed step and wraps its outcome with the matching response state
code (2 for Start, 4 for Verify, 6 for Exchange). -/
def psHandle (e : Oracles) (cfg : Config) (h : PairSetup) (db : Db)
    (step : PSStep) (rs rb : Bytes) :
    Option (PairSetup × Db × List Event × Except ErrorContainer Container) :=
  match step with
  | PSStep.start =>
    let r := psHandleStart e h db rs rb
    some (psWrap 2 (r.1, db, [], r.2))
  | PSStep.verify aPub aProof =>
    let r := psHandleVerify e h aPub aProof
    some (psWrap 4 (r.1, db, [], r.2))
  | PSStep.exchange data =>
    (psHandleExchange e cfg h db data).map fun r => psWrap 6 (h, r)

/-- Pair-Verify per-handshake session state (`Session` in pair_verify.rs). -/
structure PVSession where
  bPub : Bytes
  aPub : Bytes
  sharedSecret : Bytes
  sessionKey : Bytes
deriving DecidableEq

/-- The Pair-Verify handler state
(`PairVerify { session, session_sender }`); the one-shot channel sender is
the `Option Unit` consumed by `take()` on the first successful Finish. -/
structure PairVerify where
  session : Option PVSession
  sessionSender : Option Unit
deriving DecidableEq

/-- A parsed Pair-Verify request (`Step` in pair_verify.rs). -/
inductive PVStep
  | start (aPub : Bytes)
  | finish (data : Bytes)
deriving DecidableEq

/-- The Pair-Verify step parser (`PairVerify::parse`), taken after the
external `tlv::decode`; `none` models the `method[0]` panic on an empty
state value. -/
def pvParse (body : TlvMap) : Option (Except ErrorContainer PVStep) :=
  match body tState with
  | none => some (Except.error ⟨0, TlvErr.unknown⟩)
  | some method =>
    match method.head? with
    | none => none
    | some m =>
      if m = 1 then
        match body tPublicKey with
        | none => some (Except.error ⟨2, TlvErr.unknown⟩)
        | some aPub => some (Except.ok (PVStep.start aPub))
      else if m = 3 then
        match body tEncryptedData with
        | none => some (Except.error ⟨4, TlvErr.unknown⟩)
        | some data => some (Except.ok (PVStep.finish data))
      else some (Except.error ⟨0, TlvErr.unknown⟩)

/-- The Pair-Verify Start step (`handle_start` in pair_verify.rs): `rb` is
the sampled 32-byte ECDH scalar; computes the shared secret against the
controller's public value, signs, derives the session key, stores the
session and returns the encrypted accessory info. -/
def pvHandleStart (e : Oracles) (h : PairVerify) (db : Db)
    (aPub : Bytes) (rb : Bytes) : PairVerify × Except TlvErr Container :=
  let b := rb
  let bPub := e.curveBase b
  let sharedSecret := e.curveMul b aPub
  let accessory := db.device
  let accessoryInfo := bPub ++ accessory.id ++ aPub
  let accessorySignature := e.edSign accessoryInfo accessory.privateKey
  let encodedSubTlv := e.tlvEncode
    [(tIdentifier, accessory.id), (tSignature, accessorySignature)]
  let sessionKey := e.hkdf (ascii "Pair-Verify-Encrypt-Salt") sharedSecret
    (ascii "Pair-Verify-Encrypt-Info") 32
  let h' := { h with session := some ⟨bPub, aPub, sharedSecret, sessionKey⟩ }
  let nonce02 := List.replicate 4 0 ++ ascii "PV-Msg02"
  let ct := e.aeadEncrypt sessionKey nonce02 [] encodedSubTlv
  (h', Except.ok [Value.state 2, Value.publicKey bPub,
    Value.encryptedData (ct.1 ++ ct.2)])

/-- The Pair-Verify Finish step (`handle_finish` in pair_verify.rs).
Returns the updated handler, the list of transport sessions pushed through
the one-shot channel during the step, and the reply; `none` models the tag
split panic on payloads shorter than 16 bytes. -/
def pvHandleFinish (e : Oracles) (h : PairVerify) (db : Db) (data : Bytes) :
    Option (PairVerify × List TcpSession × Except TlvErr Container) :=
  match h.session with
  | none => some (h, [], Except.error TlvErr.unknown)
  | some s =>
    if data.length < 16 then none
    else
      let encryptedData := data.take (data.length - 16)
      let authTag := data.drop (data.length - 16)
      let nonce03 := List.replicate 4 0 ++ ascii "PV-Msg03"
      match e.aeadDecrypt s.sessionKey nonce03 [] encryptedData authTag with
      | Except.error _ => some (h, [], Except.error TlvErr.decryption)
      | Except.ok decryptedData =>
        let subTlv := e.tlvDecode decryptedData
        match subTlv tIdentifier with
        | none => some (h, [], Except.error TlvErr.unknown)
        | some devicePairingId =>
          match subTlv tSignature with
          | none => some (h, [], Except.error TlvErr.unknown)
          | some deviceSignature =>
            match e.parseUuid devicePairingId with
            | none => some (h, [], Except.error TlvErr.uuidParse)
            | some pairingUuid =>
              match db.pairings.find? (fun p => p.id == pairingUuid) with
              | none => some (h, [], Except.error TlvErr.storeNotFound)
              | some pairing =>
                let deviceInfo := s.aPub ++ devicePairingId ++ s.bPub
                if ! e.edVerify deviceInfo pairing.publicKey deviceSignature then
                  some (h, [], Except.error TlvErr.authentication)
                else
                  match h.sessionSender with
                  | some _ =>
                    some ({ h with sessionSender := none },
                      [⟨pairingUuid, s.sharedSecret⟩],
                      Except.ok [Value.state 4])
                  | none => some (h, [], Except.error TlvErr.unknown)

/-- Tags a Pair-Verify step error with its response state code
(the wrapping done per arm in `PairVerify::handle`). -/
def pvWrap (code : Nat) : Except TlvErr Container →
    Except ErrorContainer Container
  | Except.ok c => Except.ok c
  | Except.error err => Except.error ⟨code, err⟩

/-- The Pair-Verify dispatcher (`PairVerify::handle`): response state code
2 for Start, 4 for Finish; no retry counter in this handler. -/
def pvHandle (e : Oracles) (h : PairVerify) (db : Db) (step : PVStep)
    (rb : Bytes) :
    Option (PairVerify × List TcpSession × Except ErrorContainer Container) :=
  match step with
  | PVStep.start aPub =>
    let r := pvHandleStart e h db aPub rb
    some (r.1, [], pvWrap 2 r.2)
  | PVStep.finish data =>
    (pvHandleFinish e h db data).map fun r => (r.1, r.2.1, pvWrap 4 r.2.2)

/-- Runs a Pair-Verify handler over a sequence of steps (each with its
sampled randomness) and collects all transport-session hand-offs; a Rust
panic (`none`) ends the run. -/
def pvRun (e : Oracles) (db : Db) :
    PairVerify → List (PVStep × Bytes) → PairVerify × List TcpSession
  | h, [] => (h, [])
  | h, (s, r) :: rest =>
    match pvHandle e h db s r with
    | none => (h, [])
    | some (h', sent, _) =>
      let k := pvRun e db h' rest
      (k.1, sent ++ k.2)

/-- The expected client proof as the spec states it:
`M1 = H(H(N) XOR H(g) || H(I) || s || A || B || K)` with `I = "Pair-Setup"`,
where the two digests are XOR-ed as big-endian integers and the result is
serialized back to big-endian bytes. -/
def specM1 (H : Bytes → Bytes) (n g : Nat) (salt aPub bPub key : Bytes) :
    Bytes :=
  H (bigUintToBytesBE
      (fromBytesBE (H (bigUintToBytesBE n)) ^^^ fromBytesBE (H (bigUintToBytesBE g)))
    ++ H (ascii "Pair-Setup") ++ salt ++ aPub ++ bPub ++ key)

/-- The server proof as the spec states it: `M2 = H(A || M1 || K)`. -/
def specM2 (H : Bytes → Bytes) (aPub m1 key : Bytes) : Bytes :=
  H (aPub ++ m1 ++ key)

/-- A concrete accessory identity used to evaluate the model on closed
inputs. -/
def dev0 : Device :=
  ⟨ascii "AA:BB", ascii "111-22-333", List.replicate 32 1, List.replicate 64 9⟩

/-- An empty pairing store holding the concrete accessory identity. -/
def db0 : Db := ⟨dev0, []⟩

/-- A configuration with no maximum-peer count. -/
def cfg0 : Config := ⟨none⟩

/-- Concrete computable stand-ins for the external primitives, used to
evaluate the model on closed inputs: the digest of a byte string is its
length, AEAD decryption passes the ciphertext through, and signature
verification accepts. -/
def oracle0 : Oracles where
  sha := fun l => [l.length % 256]
  srpPrivateKey := fun _ _ _ => [1]
  srpVerifier := fun _ => [2]
  srpNew := fun _ _ _ _ _ => Except.ok ⟨[3], [4]⟩
  groupN := 23
  groupG := 5
  hkdf := fun _ _ _ n => List.replicate n 7
  aeadEncrypt := fun _ _ _ pt => (pt, List.replicate 16 0)
  aeadDecrypt := fun _ _ _ ct _ => Except.ok ct
  edSign := fun _ _ => [5]
  edVerify := fun _ _ _ => true
  curveBase := fun _ => [10]
  curveMul := fun _ _ => [11]
  tlvDecode := fun _ t =>
    if t = tIdentifier then some [65]
    else if t = tPublicKey then some (List.replicate 32 2)
    else if t = tSignature then some [6]
    else none
  tlvEncode := fun _ => [8]
  parseUuid := fun _ => some 1

/-- Like `oracle0` but AEAD decryption always rejects the tag. -/
def oracleBadTag : Oracles :=
  { oracle0 with aeadDecrypt := fun _ _ _ _ _ => Except.error () }

/-- Like `oracle0` but signature verification always rejects. -/
def oracleBadSig : Oracles :=
  { oracle0 with edVerify := fun _ _ _ => false }

theorem psHandleStart_preservesTries (e : Oracles) (h : PairSetup) (db : Db)
    (rs rb : Bytes) :
    (psHandleStart e h db rs rb).1.unsuccessfulTries = h.unsuccessfulTries := by
  unfold psHandleStart
  split
  · rfl
  · dsimp only
    split <;> rfl

theorem psHandleVerify_preservesTries (e : Oracles) (h : PairSetup)
    (aPub aProof : Bytes) :
    (psHandleVerify e h aPub aProof).1.unsuccessfulTries = h.unsuccessfulTries := by
  unfold psHandleVerify
  split
  · rfl
  · split
    · rfl
    · dsimp only
      split <;> rfl

theorem psWrap_error_tries (code : Nat)
    (x : PairSetup × Db × List Event × Except TlvErr Container)
    (h' : PairSetup) (db' : Db) (evs : List Event) (ec : ErrorContainer)
    (hw : psWrap code x = (h', db', evs, Except.error ec)) :
    h'.unsuccessfulTries = (x.1.unsuccessfulTries + 1) % 256 := by
  rcases x with ⟨hx, dbx, evx, rx⟩
  cases rx <;> simp [psWrap] at hw
  exact hw.1 ▸ rfl

theorem psWrap_ok_tries (code : Nat)
    (x : PairSetup × Db × List Event × Except TlvErr Container)
    (h' : PairSetup) (db' : Db) (evs : List Event) (c : Container)
    (hw : psWrap code x = (h', db', evs, Except.ok c)) :
    h'.unsuccessfulTries = 0 := by
  rcases x with ⟨hx, dbx, evx, rx⟩
  cases rx <;> simp [psWrap] at hw
  exact hw.1 ▸ rfl

/-- C2: In the Pair-Setup Verify step, the expected client proof is
computed as `M1 = H(H(N) XOR H(g) || H(I) || s || A || B || K)` with the
512-bit digest `H` and `I = "Pair-Setup"` (the two digests are combined as
big-endian integers, exactly as the source routes them through `BigUint`);
if the supplied proof equals `M1` the step returns the server proof
`M2 = H(A || M1 || K)` together with state-code 4, and otherwise it fails
with an Authentication error. -/
theorem pairSetup_verify_proofFormula (e : Oracles) (h : PairSetup)
    (s : PSSession) (aPub aProof : Bytes) (inst : SrpInst)
    (hs : h.session = some s)
    (hsrp : e.srpNew (ascii "Pair-Setup") s.salt s.verifier aPub s.b =
      Except.ok inst) :
    (aProof = specM1 e.sha e.groupN e.groupG s.salt aPub s.bPub inst.key →
      psHandleVerify e h aPub aProof =
        ({ h with session := some { s with sharedSecret := some inst.key } },
          Except.ok [Value.state 4,
            Value.proof (specM2 e.sha aPub
              (specM1 e.sha e.groupN e.groupG s.salt aPub s.bPub inst.key)
              inst.key)])) ∧
    (aProof ≠ specM1 e.sha e.groupN e.groupG s.salt aPub s.bPub inst.key →
      (psHandleVerify e h aPub aProof).2 = Except.error TlvErr.authentication) := by
  constructor
  · intro hm
    subst hm
    simp [psHandleVerify, hs, hsrp, verifyClientProof, specM1, specM2]
  · intro hm
    rw [specM1] at hm
    simp only [List.append_assoc] at hm
    simp [psHandleVerify, hs, hsrp, verifyClientProof, hm]

/-- Witness for C2 at concrete inputs: with the toy digest, `specM1`
evaluates to `[6]`, the matching proof yields state-code 4 with the server
proof, and a non-matching proof yields an Authentication error. -/
theorem pairSetup_verify_proofFormula_witness :
    [6] = specM1 oracle0.sha oracle0.groupN oracle0.groupG [1] [9] [4] [4] ∧
    psHandleVerify oracle0 ⟨some ⟨[1], [2], [3], [4], none⟩, 0⟩ [9] [6] =
      (⟨some ⟨[1], [2], [3], [4], some [4]⟩, 0⟩,
        Except.ok [Value.state 4,
          Value.proof (specM2 oracle0.sha [9]
            (specM1 oracle0.sha oracle0.groupN oracle0.groupG [1] [9] [4] [4])
            [4])]) ∧
    (psHandleVerify oracle0 ⟨some ⟨[1], [2], [3], [4], none⟩, 0⟩ [9] [0]).2 =
      Except.error TlvErr.authentication :=
  ⟨by decide,
    (pairSetup_verify_proofFormula oracle0 ⟨some ⟨[1], [2], [3], [4], none⟩, 0⟩
      ⟨[1], [2], [3], [4], none⟩ [9] [6] ⟨[3], [4]⟩ rfl rfl).1 (by decide),
    (pairSetup_verify_proofFormula oracle0 ⟨some ⟨[1], [2], [3], [4], none⟩, 0⟩
      ⟨[1], [2], [3], [4], none⟩ [9] [0] ⟨[3], [4]⟩ rfl rfl).2 (by decide)⟩

/-- C1 counterexample: the claim as stated — a Verify step with a
non-matching client proof fails with Authentication *and* leaves the
session without a usable shared secret — is false: the source stores the
SRP shared secret in the session before checking the proof, so after the
Authentication failure the session carries `shared_secret = Some K`. -/
theorem pairSetup_verify_advance_counterexample :
    ¬ (∀ (e : Oracles) (cfg : Config) (h : PairSetup) (db : Db) (s : PSSession)
        (aPub aProof rs rb : Bytes) (inst : SrpInst) (h' : PairSetup)
        (db' : Db) (evs : List Event) (r : Except ErrorContainer Container),
        h.session = some s →
        e.srpNew (ascii "Pair-Setup") s.salt s.verifier aPub s.b =
          Except.ok inst →
        aProof ≠ specM1 e.sha e.groupN e.groupG s.salt aPub s.bPub inst.key →
        psHandle e cfg h db (PSStep.verify aPub aProof) rs rb =
          some (h', db', evs, r) →
        r = Except.error ⟨4, TlvErr.authentication⟩ ∧
          ∀ s', h'.session = some s' → s'.sharedSecret = none) := by
  intro hclaim
  have h2 := hclaim oracle0 cfg0 ⟨some ⟨[1], [2], [3], [4], none⟩, 0⟩ db0
    ⟨[1], [2], [3], [4], none⟩ [9] [0] [] [] ⟨[3], [4]⟩
    ⟨some ⟨[1], [2], [3], [4], some [4]⟩, 1⟩ db0 []
    (Except.error ⟨4, TlvErr.authentication⟩)
    rfl rfl (by decide) rfl
  have h3 := h2.2 ⟨[1], [2], [3], [4], some [4]⟩ rfl
  exact absurd h3 (by decide)

/-- C1 amended: a Verify step with a non-matching client proof fails with
an Authentication error tagged with response state code 4, but the shared
secret computed for the attempt has already been stored in the session
before the proof check, so a subsequent Exchange step does find a shared
secret there (the session is not left in its post-Start state). -/
theorem pairSetup_verify_wrongProof_storesSecret (e : Oracles) (cfg : Config)
    (h : PairSetup) (db : Db) (s : PSSession) (aPub aProof rs rb : Bytes)
    (inst : SrpInst)
    (hs : h.session = some s)
    (hsrp : e.srpNew (ascii "Pair-Setup") s.salt s.verifier aPub s.b =
      Except.ok inst)
    (hm : aProof ≠ specM1 e.sha e.groupN e.groupG s.salt aPub s.bPub inst.key) :
    psHandle e cfg h db (PSStep.verify aPub aProof) rs rb =
      some ({ h with
                session := some { s with sharedSecret := some inst.key },
                unsuccessfulTries := (h.unsuccessfulTries + 1) % 256 },
        db, [], Except.error ⟨4, TlvErr.authentication⟩) := by
  rw [specM1] at hm
  simp only [List.append_assoc] at hm
  simp [psHandle, psHandleVerify, hs, hsrp, verifyClientProof, hm, psWrap]

/-- Witness for the amended C1 at concrete inputs. -/
theorem pairSetup_verify_wrongProof_storesSecret_witness :
    psHandle oracle0 cfg0 ⟨some ⟨[1], [2], [3], [4], none⟩, 0⟩ db0
        (PSStep.verify [9] [0]) [] [] =
      some (⟨some ⟨[1], [2], [3], [4], some [4]⟩, (0 + 1) % 256⟩,
        db0, [], Except.error ⟨4, TlvErr.authentication⟩) :=
  pairSetup_verify_wrongProof_storesSecret oracle0 cfg0
    ⟨some ⟨[1], [2], [3], [4], none⟩, 0⟩ db0 ⟨[1], [2], [3], [4], none⟩
    [9] [0] [] [] ⟨[3], [4]⟩ rfl rfl (by decide)

/-- C5 counterexample: the claim that the retry counter is incremented
(by one) on every failed step is false at counter value 255: the `u8`
counter wraps to 0 on the next failed step, which also contradicts "reset
to zero exactly on a successful step" and re-enables Start without any
successful step. -/
theorem pairSetup_retryCounter_counterexample :
    ¬ (∀ (e : Oracles) (cfg : Config) (h : PairSetup) (db : Db) (step : PSStep)
        (rs rb : Bytes) (h' : PairSetup) (db' : Db) (evs : List Event)
        (ec : ErrorContainer),
        psHandle e cfg h db step rs rb = some (h', db', evs, Except.error ec) →
        h'.unsuccessfulTries = h.unsuccessfulTries + 1) := by
  intro hclaim
  have := hclaim oracle0 cfg0 ⟨none, 255⟩ db0 (PSStep.verify [0] [0]) [] []
    ⟨none, 0⟩ db0 [] ⟨4, TlvErr.unknown⟩ rfl
  exact absurd this (by decide)

/-- C5 amended: the retry counter is incremented modulo 256 (the `u8`
wrap) on every failed step, including a MaxTries-caused rejection; it is
reset to zero on a successful step; and while it exceeds the ceiling of
99, the Start step is refused with a MaxTries error without creating or
replacing a session. -/
theorem pairSetup_retryCounter (e : Oracles) (cfg : Config) (h : PairSetup)
    (db : Db) (rs rb : Bytes) :
    (∀ (step : PSStep) (h' : PairSetup) (db' : Db) (evs : List Event)
        (ec : ErrorContainer),
        psHandle e cfg h db step rs rb = some (h', db', evs, Except.error ec) →
        h'.unsuccessfulTries = (h.unsuccessfulTries + 1) % 256) ∧
    (∀ (step : PSStep) (h' : PairSetup) (db' : Db) (evs : List Event)
        (c : Container),
        psHandle e cfg h db step rs rb = some (h', db', evs, Except.ok c) →
        h'.unsuccessfulTries = 0) ∧
    (99 < h.unsuccessfulTries →
      psHandle e cfg h db PSStep.start rs rb =
        some ({ h with unsuccessfulTries := (h.unsuccessfulTries + 1) % 256 },
          db, [], Except.error ⟨2, TlvErr.maxTries⟩)) := by
  refine ⟨?_, ?_, ?_⟩
  · intro step h' db' evs ec hstep
    cases step with
    | start =>
      simp only [psHandle] at hstep
      injection hstep with heq
      rw [psWrap_error_tries 2 _ h' db' evs ec heq,
        psHandleStart_preservesTries]
    | verify aPub aProof =>
      simp only [psHandle] at hstep
      injection hstep with heq
      rw [psWrap_error_tries 4 _ h' db' evs ec heq,
        psHandleVerify_preservesTries]
    | exchange data =>
      simp only [psHandle] at hstep
      cases hex : psHandleExchange e cfg h db data with
      | none => rw [hex] at hstep; cases hstep
      | some out =>
        rw [hex] at hstep
        simp only [Option.map_some'] at hstep
        injection hstep with heq
        exact psWrap_error_tries 6 _ h' db' evs ec heq
  · intro step h' db' evs c hstep
    cases step with
    | start =>
      simp only [psHandle] at hstep
      injection hstep with heq
      exact psWrap_ok_tries 2 _ h' db' evs c heq
    | verify aPub aProof =>
      simp only [psHandle] at hstep
      injection hstep with heq
      exact psWrap_ok_tries 4 _ h' db' evs c heq
    | exchange data =>
      simp only [psHandle] at hstep
      cases hex : psHandleExchange e cfg h db data with
      | none => rw [hex] at hstep; cases hstep
      | some out =>
        rw [hex] at hstep
        simp only [Option.map_some'] at hstep
        injection hstep with heq
        exact psWrap_ok_tries 6 _ h' db' evs c heq
  · intro h99
    simp [psHandle, psHandleStart, h99, psWrap]

/-- Witness for the amended C5 at concrete inputs: a failed Verify at
counter 3 moves it to (3 + 1) % 256, a successful Start resets it to 0,
and Start at counter 100 is refused with MaxTries. -/
theorem pairSetup_retryCounter_witness :
    (PairSetup.mk none 4).unsuccessfulTries = (3 + 1) % 256 ∧
    (PairSetup.mk (some ⟨[], [2], [], [3], none⟩) 0).unsuccessfulTries = 0 ∧
    psHandle oracle0 cfg0 ⟨none, 100⟩ db0 PSStep.start [] [] =
      some (⟨none, (100 + 1) % 256⟩, db0, [],
        Except.error ⟨2, TlvErr.maxTries⟩) :=
  ⟨(pairSetup_retryCounter oracle0 cfg0 ⟨none, 3⟩ db0 [] []).1
      (PSStep.verify [0] [0]) ⟨none, 4⟩ db0 [] ⟨4, TlvErr.unknown⟩ rfl,
    (pairSetup_retryCounter oracle0 cfg0 ⟨none, 7⟩ db0 [] []).2.1
      PSStep.start ⟨some ⟨[], [2], [], [3], none⟩, 0⟩ db0 []
      [Value.state 2, Value.publicKey [3], Value.salt []] rfl,
    (pairSetup_retryCounter oracle0 cfg0 ⟨none, 100⟩ db0 [] []).2.2
      (by decide)⟩

/-- C3: when a maximum-peer count `n` is configured and the store already
holds `n` pairings, an otherwise-valid Exchange step fails with a MaxPeers
error tagged with response state code 6 and returns the store unchanged
(still exactly `n` records, nothing saved) and emits no event: the
capacity check runs before the save. -/
theorem pairSetup_exchange_maxPeers (e : Oracles) (cfg : Config)
    (h : PairSetup) (db : Db) (s : PSSession)
    (secret data pt pid ltpk sig : Bytes) (u : Uuid) (n : Nat) (rs rb : Bytes)
    (hs : h.session = some s)
    (hsec : s.sharedSecret = some secret)
    (hlen : 16 ≤ data.length)
    (hdec : e.aeadDecrypt
        (e.hkdf (ascii "Pair-Setup-Encrypt-Salt") secret
          (ascii "Pair-Setup-Encrypt-Info") 32)
        (List.replicate 4 0 ++ ascii "PS-Msg05") []
        (data.take (data.length - 16)) (data.drop (data.length - 16)) =
      Except.ok pt)
    (hid : e.tlvDecode pt tIdentifier = some pid)
    (hpk : e.tlvDecode pt tPublicKey = some ltpk)
    (hsg : e.tlvDecode pt tSignature = some sig)
    (hver : e.edVerify
        (e.hkdf (ascii "Pair-Setup-Controller-Sign-Salt") secret
          (ascii "Pair-Setup-Controller-Sign-Info") 32 ++ pid ++ ltpk)
        ltpk sig = true)
    (huuid : e.parseUuid pid = some u)
    (hltpk : 32 ≤ ltpk.length)
    (hmax : cfg.maxPeers = some n)
    (hcount : db.pairings.length = n) :
    psHandle e cfg h db (PSStep.exchange data) rs rb =
      some ({ h with unsuccessfulTries := (h.unsuccessfulTries + 1) % 256 },
        db, [], Except.error ⟨6, TlvErr.maxPeers⟩) ∧
    db.pairings.length = n := by
  refine ⟨?_, hcount⟩
  have hnlt : ¬ data.length < 16 := Nat.not_lt.mpr hlen
  have hplt : ¬ ltpk.length < 32 := Nat.not_lt.mpr hltpk
  simp only [psHandle, psHandleExchange, hs, hsec, hnlt, if_false, hdec,
    hid, hpk, hsg, huuid, hmax, hplt, hcount]
  simp only [List.append_assoc] at hver
  simp [psWrap, hver, hs, Nat.lt_succ_self]

/-- Witness for C3 at concrete inputs with an empty store and a
maximum-peer count of zero. -/
theorem pairSetup_exchange_maxPeers_witness :
    psHandle oracle0 ⟨some 0⟩ ⟨some ⟨[1], [2], [3], [4], some [4]⟩, 0⟩ db0
        (PSStep.exchange (List.replicate 16 0)) [] [] =
      some (⟨some ⟨[1], [2], [3], [4], some [4]⟩, (0 + 1) % 256⟩,
        db0, [], Except.error ⟨6, TlvErr.maxPeers⟩) ∧
    db0.pairings.length = 0 :=
  pairSetup_exchange_maxPeers oracle0 ⟨some 0⟩
    ⟨some ⟨[1], [2], [3], [4], some [4]⟩, 0⟩ db0 ⟨[1], [2], [3], [4], some [4]⟩
    [4] (List.replicate 16 0) [] [65] (List.replicate 32 2) [6] 1 0 [] []
    rfl rfl (by decide) rfl rfl rfl rfl rfl rfl (by decide) rfl rfl

/-- C6: an Exchange step in a handler state with no successful Verify —
no session, or a session whose shared secret is unset — fails with an
Unknown error tagged with response state code 6 and leaves the pairing
store untouched (and emits no event). -/
theorem pairSetup_exchange_noSecret_unknown (e : Oracles) (cfg : Config)
    (h : PairSetup) (db : Db) (data rs rb : Bytes)
    (hns : ∀ s, h.session = some s → s.sharedSecret = none) :
    psHandle e cfg h db (PSStep.exchange data) rs rb =
      some ({ h with unsuccessfulTries := (h.unsuccessfulTries + 1) % 256 },
        db, [], Except.error ⟨6, TlvErr.unknown⟩) := by
  cases hs : h.session with
  | none => simp [psHandle, psHandleExchange, hs, psWrap]
  | some s =>
    have hsec := hns s hs
    simp [psHandle, psHandleExchange, hs, hsec, psWrap]

/-- Witness for C6: no session at all, and a session whose Verify step
never succeeded. -/
theorem pairSetup_exchange_noSecret_unknown_witness :
    psHandle oracle0 cfg0 ⟨none, 0⟩ db0 (PSStep.exchange [1, 2, 3]) [] [] =
      some (⟨none, (0 + 1) % 256⟩, db0, [],
        Except.error ⟨6, TlvErr.unknown⟩) ∧
    psHandle oracle0 cfg0 ⟨some ⟨[1], [2], [3], [4], none⟩, 2⟩ db0
        (PSStep.exchange (List.replicate 20 0)) [] [] =
      some (⟨some ⟨[1], [2], [3], [4], none⟩, (2 + 1) % 256⟩, db0, [],
        Except.error ⟨6, TlvErr.unknown⟩) :=
  ⟨pairSetup_exchange_noSecret_unknown oracle0 cfg0 ⟨none, 0⟩ db0 [1, 2, 3]
      [] [] (by intro s hs; cases hs),
    pairSetup_exchange_noSecret_unknown oracle0 cfg0
      ⟨some ⟨[1], [2], [3], [4], none⟩, 2⟩ db0 (List.replicate 20 0) [] []
      (by intro s hs; cases hs; rfl)⟩

/-- C4: in both step parsers, a missing required field fails with an
Unknown ("unknown step") error tagged with the response state code of the
requested step's reply (4 for a Pair-Setup Verify request, 6 for an
Exchange request, 2 for a Pair-Verify Start request, 4 for a Finish
request) — not the request's own state code — while a missing state field
or an unrecognized state code is tagged with the Unknown reply code 0. -/
theorem stepParser_errorStateCodes (m : TlvMap) (x : Nat) (rest : Bytes) :
    (m tState = none → psParse m = some (Except.error ⟨0, TlvErr.unknown⟩)) ∧
    (m tState = some (3 :: rest) → m tPublicKey = none →
      psParse m = some (Except.error ⟨4, TlvErr.unknown⟩)) ∧
    (∀ aPub, m tState = some (3 :: rest) → m tPublicKey = some aPub →
      m tProof = none →
      psParse m = some (Except.error ⟨4, TlvErr.unknown⟩)) ∧
    (m tState = some (5 :: rest) → m tEncryptedData = none →
      psParse m = some (Except.error ⟨6, TlvErr.unknown⟩)) ∧
    (m tState = some (x :: rest) → x ≠ 1 → x ≠ 3 → x ≠ 5 →
      psParse m = some (Except.error ⟨0, TlvErr.unknown⟩)) ∧
    (m tState = none → pvParse m = some (Except.error ⟨0, TlvErr.unknown⟩)) ∧
    (m tState = some (1 :: rest) → m tPublicKey = none →
      pvParse m = some (Except.error ⟨2, TlvErr.unknown⟩)) ∧
    (m tState = some (3 :: rest) → m tEncryptedData = none →
      pvParse m = some (Except.error ⟨4, TlvErr.unknown⟩)) ∧
    (m tState = some (x :: rest) → x ≠ 1 → x ≠ 3 →
      pvParse m = some (Except.error ⟨0, TlvErr.unknown⟩)) := by
  refine ⟨?_, ?_, ?_, ?_, ?_, ?_, ?_, ?_, ?_⟩
  · intro h1
    simp [psParse, h1]
  · intro h1 h2
    simp [psParse, h1, h2]
  · intro aPub h1 h2 h3
    simp [psParse, h1, h2, h3]
  · intro h1 h2
    simp [psParse, h1, h2]
  · intro h1 hx1 hx3 hx5
    simp [psParse, h1, hx1, hx3, hx5]
  · intro h1
    simp [pvParse, h1]
  · intro h1 h2
    simp [pvParse, h1, h2]
  · intro h1 h2
    simp [pvParse, h1, h2]
  · intro h1 hx1 hx3
    simp [pvParse, h1, hx1, hx3]

/-- Witness for C4: each error case evaluated on a concrete decoded
mapping. -/
theorem stepParser_errorStateCodes_witness :
    psParse (fun _ => none) = some (Except.error ⟨0, TlvErr.unknown⟩) ∧
    psParse (fun t => if t = tState then some [3] else none) =
      some (Except.error ⟨4, TlvErr.unknown⟩) ∧
    psParse (fun t => if t = tState then some [3]
        else if t = tPublicKey then some [7] else none) =
      some (Except.error ⟨4, TlvErr.unknown⟩) ∧
    psParse (fun t => if t = tState then some [5] else none) =
      some (Except.error ⟨6, TlvErr.unknown⟩) ∧
    psParse (fun t => if t = tState then some [9] else none) =
      some (Except.error ⟨0, TlvErr.unknown⟩) ∧
    pvParse (fun _ => none) = some (Except.error ⟨0, TlvErr.unknown⟩) ∧
    pvParse (fun t => if t = tState then some [1] else none) =
      some (Except.error ⟨2, TlvErr.unknown⟩) ∧
    pvParse (fun t => if t = tState then some [3] else none) =
      some (Except.error ⟨4, TlvErr.unknown⟩) ∧
    pvParse (fun t => if t = tState then some [9] else none) =
      some (Except.error ⟨0, TlvErr.unknown⟩) :=
  ⟨(stepParser_errorStateCodes (fun _ => none) 0 []).1 rfl,
    (stepParser_errorStateCodes (fun t => if t = tState then some [3] else none)
      0 []).2.1 rfl rfl,
    (stepParser_errorStateCodes (fun t => if t = tState then some [3]
        else if t = tPublicKey then some [7] else none) 0 []).2.2.1 [7]
      rfl rfl rfl,
    (stepParser_errorStateCodes (fun t => if t = tState then some [5] else none)
      0 []).2.2.2.1 rfl rfl,
    (stepParser_errorStateCodes (fun t => if t = tState then some [9] else none)
      9 []).2.2.2.2.1 rfl (by decide) (by decide) (by decide),
    (stepParser_errorStateCodes (fun _ => none) 0 []).2.2.2.2.2.1 rfl,
    (stepParser_errorStateCodes (fun t => if t = tState then some [1] else none)
      0 []).2.2.2.2.2.2.1 rfl rfl,
    (stepParser_errorStateCodes (fun t => if t = tState then some [3] else none)
      0 []).2.2.2.2.2.2.2.1 rfl rfl,
    (stepParser_errorStateCodes (fun t => if t = tState then some [9] else none)
      9 []).2.2.2.2.2.2.2.2 rfl (by decide) (by decide)⟩

/-- C7: the Exchange step splits the payload into body and trailing
16-byte tag, derives the 32-byte key by HKDF-SHA512 with salt label
"Pair-Setup-Encrypt-Salt" and info label "Pair-Setup-Encrypt-Info" from
the SRP shared secret, and decrypts with empty associated data and the
12-byte nonce `0,0,0,0 || "PS-Msg05"`; a tag failure fails the whole step
with a decryption error, and the successful reply is encrypted with the
same key and the nonce `0,0,0,0 || "PS-Msg06"`, the tag appended. -/
theorem pairSetup_exchange_aeadEnvelope (e : Oracles) (cfg : Config)
    (h : PairSetup) (db : Db) (s : PSSession) (secret data : Bytes)
    (rs rb : Bytes)
    (hs : h.session = some s)
    (hsec : s.sharedSecret = some secret)
    (hlen : 16 ≤ data.length) :
    let key := e.hkdf (ascii "Pair-Setup-Encrypt-Salt") secret
      (ascii "Pair-Setup-Encrypt-Info") 32
    let nonce05 : Bytes := [0, 0, 0, 0, 80, 83, 45, 77, 115, 103, 48, 53]
    let nonce06 : Bytes := [0, 0, 0, 0, 80, 83, 45, 77, 115, 103, 48, 54]
    let body := data.take (data.length - 16)
    let tag := data.drop (data.length - 16)
    (∀ err, e.aeadDecrypt key nonce05 [] body tag = Except.error err →
      psHandle e cfg h db (PSStep.exchange data) rs rb =
        some ({ h with unsuccessfulTries := (h.unsuccessfulTries + 1) % 256 },
          db, [], Except.error ⟨6, TlvErr.decryption⟩)) ∧
    (∀ pt pid ltpk sig u,
      e.aeadDecrypt key nonce05 [] body tag = Except.ok pt →
      e.tlvDecode pt tIdentifier = some pid →
      e.tlvDecode pt tPublicKey = some ltpk →
      e.tlvDecode pt tSignature = some sig →
      e.edVerify (e.hkdf (ascii "Pair-Setup-Controller-Sign-Salt") secret
        (ascii "Pair-Setup-Controller-Sign-Info") 32 ++ pid ++ ltpk)
        ltpk sig = true →
      e.parseUuid pid = some u →
      32 ≤ ltpk.length →
      cfg.maxPeers = none →
      psHandle e cfg h db (PSStep.exchange data) rs rb =
        some ({ h with unsuccessfulTries := 0 },
          { db with pairings :=
              db.pairings ++ [⟨u, Permissions.admin, ltpk.take 32⟩] },
          [Event.devicePaired],
          Except.ok [Value.state 6, Value.encryptedData
            ((e.aeadEncrypt key nonce06 []
                (e.tlvEncode [(tIdentifier, db.device.id),
                  (tPublicKey, db.device.publicKey),
                  (tSignature, e.edSign
                    (e.hkdf (ascii "Pair-Setup-Accessory-Sign-Salt") secret
                      (ascii "Pair-Setup-Accessory-Sign-Info") 32
                      ++ db.device.id ++ db.device.publicKey)
                    db.device.privateKey)])).1 ++
              (e.aeadEncrypt key nonce06 []
                (e.tlvEncode [(tIdentifier, db.device.id),
                  (tPublicKey, db.device.publicKey),
                  (tSignature, e.edSign
                    (e.hkdf (ascii "Pair-Setup-Accessory-Sign-Salt") secret
                      (ascii "Pair-Setup-Accessory-Sign-Info") 32
                      ++ db.device.id ++ db.device.publicKey)
                    db.device.privateKey)])).2)])) := by
  have hnlt : ¬ data.length < 16 := Nat.not_lt.mpr hlen
  have hn05 : List.replicate 4 0 ++ ascii "PS-Msg05" =
      ([0, 0, 0, 0, 80, 83, 45, 77, 115, 103, 48, 53] : Bytes) := by decide
  have hn06 : List.replicate 4 0 ++ ascii "PS-Msg06" =
      ([0, 0, 0, 0, 80, 83, 45, 77, 115, 103, 48, 54] : Bytes) := by decide
  constructor
  · intro err hdec
    simp only [psHandle, psHandleExchange, hs, hsec, hnlt, if_false, hn05,
      hdec]
    simp [psWrap, hs]
  · intro pt pid ltpk sig u hdec hid hpk hsg hver huuid hltpk hmax
    have hplt : ¬ ltpk.length < 32 := Nat.not_lt.mpr hltpk
    simp only [psHandle, psHandleExchange, hs, hsec, hnlt, if_false, hn05,
      hn06, hdec, hid, hpk, hsg, huuid, hmax, hplt]
    simp only [List.append_assoc] at hver
    simp [psWrap, hver, hs]

/-- Witness for C7 at concrete inputs: a rejected tag yields the
decryption error; an accepted payload yields the encrypted reply with the
appended tag and the saved pairing. -/
theorem pairSetup_exchange_aeadEnvelope_witness :
    psHandle oracleBadTag cfg0 ⟨some ⟨[1], [2], [3], [4], some [4]⟩, 0⟩ db0
        (PSStep.exchange (List.replicate 16 0)) [] [] =
      some (⟨some ⟨[1], [2], [3], [4], some [4]⟩, (0 + 1) % 256⟩, db0, [],
        Except.error ⟨6, TlvErr.decryption⟩) ∧
    psHandle oracle0 cfg0 ⟨some ⟨[1], [2], [3], [4], some [4]⟩, 5⟩ db0
        (PSStep.exchange (List.replicate 16 0)) [] [] =
      some (⟨some ⟨[1], [2], [3], [4], some [4]⟩, 0⟩,
        ⟨dev0, [⟨1, Permissions.admin, List.replicate 32 2⟩]⟩,
        [Event.devicePaired],
        Except.ok [Value.state 6,
          Value.encryptedData ([8] ++ List.replicate 16 0)]) := by
  constructor
  · have := (pairSetup_exchange_aeadEnvelope oracleBadTag cfg0
      ⟨some ⟨[1], [2], [3], [4], some [4]⟩, 0⟩ db0 ⟨[1], [2], [3], [4], some [4]⟩
      [4] (List.replicate 16 0) [] [] rfl rfl (by decide)).1 () rfl
    simpa using this
  · have := (pairSetup_exchange_aeadEnvelope oracle0 cfg0
      ⟨some ⟨[1], [2], [3], [4], some [4]⟩, 5⟩ db0 ⟨[1], [2], [3], [4], some [4]⟩
      [4] (List.replicate 16 0) [] [] rfl rfl (by decide)).2
      [] [65] (List.replicate 32 2) [6] 1 rfl rfl rfl rfl rfl rfl
      (by decide) rfl
    simpa using this

/-- C9: in the Pair-Verify Finish step, with the incoming payload
decrypted and parsed, a missing Pairing record for the parsed UUID fails
with a store error distinct from an Authentication (signature-mismatch)
error, and a signature that does not verify over
`controller-public || controller-id || server-public` under the stored
pairing key fails with an Authentication error, however consistent the
rest of the handshake is. -/
theorem pairVerify_finish_signatureCheck (e : Oracles) (db : Db)
    (h : PairVerify) (s : PVSession) (data pt pid sig r : Bytes) (u : Uuid)
    (hs : h.session = some s)
    (hlen : 16 ≤ data.length)
    (hdec : e.aeadDecrypt s.sessionKey
        (List.replicate 4 0 ++ ascii "PV-Msg03") []
        (data.take (data.length - 16)) (data.drop (data.length - 16)) =
      Except.ok pt)
    (hid : e.tlvDecode pt tIdentifier = some pid)
    (hsg : e.tlvDecode pt tSignature = some sig)
    (huuid : e.parseUuid pid = some u) :
    (db.pairings.find? (fun q => q.id == u) = none →
      pvHandle e h db (PVStep.finish data) r =
        some (h, [], Except.error ⟨4, TlvErr.storeNotFound⟩) ∧
      TlvErr.storeNotFound ≠ TlvErr.authentication) ∧
    (∀ p, db.pairings.find? (fun q => q.id == u) = some p →
      e.edVerify (s.aPub ++ pid ++ s.bPub) p.publicKey sig = false →
      pvHandle e h db (PVStep.finish data) r =
        some (h, [], Except.error ⟨4, TlvErr.authentication⟩)) := by
  have hnlt : ¬ data.length < 16 := Nat.not_lt.mpr hlen
  constructor
  · intro hfind
    refine ⟨?_, by decide⟩
    simp only [pvHandle, pvHandleFinish, hs, hnlt, if_false, hdec, hid, hsg,
      huuid, hfind]
    simp [pvWrap]
  · intro p hfind hver
    simp only [List.append_assoc] at hver
    simp only [pvHandle, pvHandleFinish, hs, hnlt, if_false, hdec, hid, hsg,
      huuid, hfind]
    simp [pvWrap, hver]

/-- A pairing store holding one record for controller UUID 1 with the toy
32-byte public key, used to evaluate the Pair-Verify Finish step. -/
def dbPaired : Db := ⟨dev0, [⟨1, Permissions.admin, List.replicate 32 2⟩]⟩

/-- Witness for C9 at concrete inputs: an empty store yields the
store-not-found error; a store with the pairing but a rejected signature
yields the Authentication error. -/
theorem pairVerify_finish_signatureCheck_witness :
    (pvHandle oracle0 ⟨some ⟨[4], [3], [11], [7]⟩, some ()⟩ db0
        (PVStep.finish (List.replicate 16 0)) [] =
      some (⟨some ⟨[4], [3], [11], [7]⟩, some ()⟩, [],
        Except.error ⟨4, TlvErr.storeNotFound⟩) ∧
      TlvErr.storeNotFound ≠ TlvErr.authentication) ∧
    pvHandle oracleBadSig ⟨some ⟨[4], [3], [11], [7]⟩, some ()⟩ dbPaired
        (PVStep.finish (List.replicate 16 0)) [] =
      some (⟨some ⟨[4], [3], [11], [7]⟩, some ()⟩, [],
        Except.error ⟨4, TlvErr.authentication⟩) :=
  ⟨(pairVerify_finish_signatureCheck oracle0 db0
      ⟨some ⟨[4], [3], [11], [7]⟩, some ()⟩ ⟨[4], [3], [11], [7]⟩
      (List.replicate 16 0) [] [65] [6] [] 1
      rfl (by decide) rfl rfl rfl rfl).1 rfl,
    (pairVerify_finish_signatureCheck oracleBadSig dbPaired
      ⟨some ⟨[4], [3], [11], [7]⟩, some ()⟩ ⟨[4], [3], [11], [7]⟩
      (List.replicate 16 0) [] [65] [6] [] 1
      rfl (by decide) rfl rfl rfl rfl).2
      ⟨1, Permissions.admin, List.replicate 32 2⟩ rfl rfl⟩

theorem pvHandleStart_sender (e : Oracles) (h : PairVerify) (db : Db)
    (aPub rb : Bytes) :
    (pvHandleStart e h db aPub rb).1.sessionSender = h.sessionSender := rfl

theorem pvHandleFinish_sendBound (e : Oracles) (h : PairVerify) (db : Db)
    (data : Bytes) (h' : PairVerify) (sent : List TcpSession)
    (res : Except TlvErr Container)
    (hstep : pvHandleFinish e h db data = some (h', sent, res)) :
    sent.length + (if h'.sessionSender.isSome then 1 else 0) ≤
      (if h.sessionSender.isSome then 1 else 0) := by
  unfold pvHandleFinish at hstep
  dsimp only at hstep
  repeat' split at hstep
  all_goals (cases hstep <;> simp_all)

theorem pvHandle_sendBound (e : Oracles) (h : PairVerify) (db : Db)
    (step : PVStep) (r : Bytes) (h' : PairVerify) (sent : List TcpSession)
    (res : Except ErrorContainer Container)
    (hstep : pvHandle e h db step r = some (h', sent, res)) :
    sent.length + (if h'.sessionSender.isSome then 1 else 0) ≤
      (if h.sessionSender.isSome then 1 else 0) := by
  cases step with
  | start aPub =>
    simp only [pvHandle] at hstep
    cases hstep
    simp [pvHandleStart_sender]
  | finish data =>
    simp only [pvHandle] at hstep
    cases hex : pvHandleFinish e h db data with
    | none => rw [hex] at hstep; cases hstep
    | some out =>
      rw [hex] at hstep
      simp only [Option.map_some'] at hstep
      obtain ⟨o1, o2, o3⟩ := out
      cases hstep
      exact pvHandleFinish_sendBound e h db data o1 o2 o3 hex

theorem pvRun_sendBound (e : Oracles) (db : Db) :
    ∀ (steps : List (PVStep × Bytes)) (h : PairVerify),
      ((pvRun e db h steps).2).length ≤
        (if h.sessionSender.isSome then 1 else 0) := by
  intro steps
  induction steps with
  | nil => intro h; simp [pvRun]
  | cons sr rest ih =>
    intro h
    obtain ⟨st, r⟩ := sr
    simp only [pvRun]
    cases hstep : pvHandle e h db st r with
    | none => simp
    | some out =>
      obtain ⟨h', sent, res⟩ := out
      have h1 := pvHandle_sendBound e h db st r h' sent res hstep
      have h2 := ih h'
      simp only [List.length_append]
      omega

/-- C8: across any step sequence on one Pair-Verify handler, the
transport-session hand-off is delivered at most once.  The first
successful Finish consumes the one-shot sender, delivers exactly one
`{controller_id, shared_secret}` object, and sets the sender to `none`;
with the sender already consumed, a Finish that passes every other check
fails with an Unknown error, and no Finish delivers anything. -/
theorem pairVerify_handoff_atMostOnce (e : Oracles) (db : Db)
    (h : PairVerify) (s : PVSession) (data pt pid sig r : Bytes) (u : Uuid)
    (p : Pairing) (steps : List (PVStep × Bytes)) :
    (h.sessionSender = some () → ((pvRun e db h steps).2).length ≤ 1) ∧
    (h.session = some s → 16 ≤ data.length →
      e.aeadDecrypt s.sessionKey (List.replicate 4 0 ++ ascii "PV-Msg03") []
        (data.take (data.length - 16)) (data.drop (data.length - 16)) =
        Except.ok pt →
      e.tlvDecode pt tIdentifier = some pid →
      e.tlvDecode pt tSignature = some sig →
      e.parseUuid pid = some u →
      db.pairings.find? (fun q => q.id == u) = some p →
      e.edVerify (s.aPub ++ pid ++ s.bPub) p.publicKey sig = true →
      (h.sessionSender = some () →
        pvHandle e h db (PVStep.finish data) r =
          some ({ h with sessionSender := none }, [⟨u, s.sharedSecret⟩],
            Except.ok [Value.state 4])) ∧
      (h.sessionSender = none →
        pvHandle e h db (PVStep.finish data) r =
          some (h, [], Except.error ⟨4, TlvErr.unknown⟩))) ∧
    (h.sessionSender = none → ∀ (d rr : Bytes) (h' : PairVerify)
        (sent : List TcpSession) (res : Except ErrorContainer Container),
      pvHandle e h db (PVStep.finish d) rr = some (h', sent, res) →
      sent = []) := by
  refine ⟨?_, ?_, ?_⟩
  · intro hsend
    have := pvRun_sendBound e db steps h
    rw [hsend] at this
    simpa using this
  · intro hs hlen hdec hid hsg huuid hfind hver
    have hnlt : ¬ data.length < 16 := Nat.not_lt.mpr hlen
    simp only [List.append_assoc] at hver
    constructor
    · intro hsend
      simp only [pvHandle, pvHandleFinish, hs, hnlt, if_false, hdec, hid,
        hsg, huuid, hfind, hsend]
      simp [pvWrap, hver, hs]
    · intro hsend
      simp only [pvHandle, pvHandleFinish, hs, hnlt, if_false, hdec, hid,
        hsg, huuid, hfind, hsend]
      simp [pvWrap, hver]
  · intro hsend d rr h' sent res hstep
    have := pvHandle_sendBound e h db (PVStep.finish d) rr h' sent res hstep
    rw [hsend] at this
    exact (by simpa using this : sent = [] ∧ h'.sessionSender = none).1

/-- Witness for C8 at concrete inputs: a two-Finish trace delivers at most
one hand-off; the first successful Finish consumes the sender and delivers
exactly one session object; a Finish on the consumed handler fails with
Unknown. -/
theorem pairVerify_handoff_atMostOnce_witness :
    ((pvRun oracle0 dbPaired ⟨some ⟨[4], [3], [11], [7]⟩, some ()⟩
        [(PVStep.finish (List.replicate 16 0), []),
          (PVStep.finish (List.replicate 16 0), [])]).2).length ≤ 1 ∧
    pvHandle oracle0 ⟨some ⟨[4], [3], [11], [7]⟩, some ()⟩ dbPaired
        (PVStep.finish (List.replicate 16 0)) [] =
      some (⟨some ⟨[4], [3], [11], [7]⟩, none⟩, [⟨1, [11]⟩],
        Except.ok [Value.state 4]) ∧
    pvHandle oracle0 ⟨some ⟨[4], [3], [11], [7]⟩, none⟩ dbPaired
        (PVStep.finish (List.replicate 16 0)) [] =
      some (⟨some ⟨[4], [3], [11], [7]⟩, none⟩, [],
        Except.error ⟨4, TlvErr.unknown⟩) :=
  ⟨(pairVerify_handoff_atMostOnce oracle0 dbPaired
      ⟨some ⟨[4], [3], [11], [7]⟩, some ()⟩ ⟨[4], [3], [11], [7]⟩
      (List.replicate 16 0) [] [65] [6] [] 1
      ⟨1, Permissions.admin, List.replicate 32 2⟩
      [(PVStep.finish (List.replicate 16 0), []),
        (PVStep.finish (List.replicate 16 0), [])]).1 rfl,
    ((pairVerify_handoff_atMostOnce oracle0 dbPaired
      ⟨some ⟨[4], [3], [11], [7]⟩, some ()⟩ ⟨[4], [3], [11], [7]⟩
      (List.replicate 16 0) [] [65] [6] [] 1
      ⟨1, Permissions.admin, List.replicate 32 2⟩ []).2.1
      rfl (by decide) rfl rfl rfl rfl rfl rfl).1 rfl,
    ((pairVerify_handoff_atMostOnce oracle0 dbPaired
      ⟨some ⟨[4], [3], [11], [7]⟩, none⟩ ⟨[4], [3], [11], [7]⟩
      (List.replicate 16 0) [] [65] [6] [] 1
      ⟨1, Permissions.admin, List.replicate 32 2⟩ []).2.1
      rfl (by decide) rfl rfl rfl rfl rfl rfl).2 rfl⟩

/-- C10: the tag split `data[..data.len() - 16]` in the Pair-Setup
Exchange step and the Pair-Verify Finish step is only defined for
payloads of at least 16 bytes: on any shorter encrypted-data field that
reaches the split (session checks pass), both steps panic (usize
underflow followed by an out-of-bounds slice) instead of returning an
error — modelled as the undefined outcome `none`. -/
theorem tagSplit_shortPayload_panics (e : Oracles) (cfg : Config)
    (h : PairSetup) (hv : PairVerify) (db : Db) (s : PSSession)
    (sv : PVSession) (secret data rs rb r : Bytes)
    (hs : h.session = some s)
    (hsec : s.sharedSecret = some secret)
    (hsv : hv.session = some sv)
    (hlen : data.length < 16) :
    psHandle e cfg h db (PSStep.exchange data) rs rb = none ∧
    pvHandle e hv db (PVStep.finish data) r = none := by
  constructor
  · simp [psHandle, psHandleExchange, hs, hsec, hlen]
  · simp [pvHandle, pvHandleFinish, hsv, hlen]

/-- Witness for C10: a 3-byte encrypted-data field reaching either split
yields the undefined (panic) outcome. -/
theorem tagSplit_shortPayload_panics_witness :
    psHandle oracle0 cfg0 ⟨some ⟨[1], [2], [3], [4], some [4]⟩, 0⟩ db0
        (PSStep.exchange [1, 2, 3]) [] [] = none ∧
    pvHandle oracle0 ⟨some ⟨[4], [3], [11], [7]⟩, some ()⟩ db0
        (PVStep.finish [1, 2, 3]) [] = none :=
  tagSplit_shortPayload_panics oracle0 cfg0
    ⟨some ⟨[1], [2], [3], [4], some [4]⟩, 0⟩
    ⟨some ⟨[4], [3], [11], [7]⟩, some ()⟩ db0 ⟨[1], [2], [3], [4], some [4]⟩
    ⟨[4], [3], [11], [7]⟩ [4] [1, 2, 3] [] [] []
    rfl rfl rfl (by decide)
